import Mathlib

/-!
Shallow embedding of the Portfolio backend's two accounting cores:
the persistent uptime accountant (src/backend/app.py) and the
in-memory downtime state machine (src/backend/downtime_tracker.py).

Timestamps and durations (Python floats holding Unix times) are
modelled as rationals.  Python values that may be `None` are modelled
as `Option`; Python truthiness on a float-or-None value is explicit
(`None` and `0.0` are falsy).  Database rows become Lean structures,
and each handler becomes a pure function from the pre-state (plus the
clock / boot-time sensor readings taken during the request) to the
post-state and the JSON response body it returns.
-/

/-- The `uptime_record` row of `app.py` (`UptimeRecord` model).
`last_updated` is bookkeeping only and is omitted. -/
structure UptimeRecord where
  accumulated_uptime_seconds : ℚ
  last_session_uptime : ℚ
  last_boot_time : Option ℚ
deriving DecidableEq, Repr

/-- Python truthiness of a float-or-None column value:
`None` and `0.0` are falsy, every other float is truthy. -/
def pyTruthyFloat : Option ℚ → Bool
  | none => false
  | some x => x != 0

/-- `handle_boot_detection` in app.py: if `record.last_boot_time` is
truthy and differs from the sensor's current boot time by more than 60
seconds, fold `last_session_uptime` into `accumulated_uptime_seconds`,
zero `last_session_uptime` and store the new boot time; otherwise
leave the record untouched. -/
def handle_boot_detection (record : UptimeRecord) (current_boot_time : ℚ) :
    UptimeRecord :=
  if pyTruthyFloat record.last_boot_time &&
      decide (60 < |record.last_boot_time.getD 0 - current_boot_time|) then
    { accumulated_uptime_seconds :=
        record.accumulated_uptime_seconds + record.last_session_uptime
      last_session_uptime := 0
      last_boot_time := some current_boot_time }
  else
    record

/-- `get_system_uptime_since_boot` in app.py: `time.time() - psutil.boot_time()`. -/
def get_system_uptime_since_boot (boot_time now : ℚ) : ℚ :=
  now - boot_time

/-- `calculate_persistent_uptime` in app.py:
accumulated total of prior sessions plus the current session. -/
def calculate_persistent_uptime (record : UptimeRecord) (boot_time now : ℚ) : ℚ :=
  record.accumulated_uptime_seconds + get_system_uptime_since_boot boot_time now

/-- `save_current_session_uptime` in app.py: checkpoint the current
session length into `last_session_uptime` and commit. -/
def save_current_session_uptime (record : UptimeRecord) (boot_time now : ℚ) :
    UptimeRecord :=
  { record with last_session_uptime := get_system_uptime_since_boot boot_time now }

/-- The uptime portion of the `GET /api/homeserver` handler
(`get_server_stats` in app.py): compute `current_uptime` and
`total_uptime`, then checkpoint the session.  Returns
`(current_uptime, total_uptime, post-state record)`.  The CPU/RAM/disk
sensor reads are opaque externals and do not touch the record. -/
def get_server_stats (record : UptimeRecord) (boot_time now : ℚ) :
    ℚ × ℚ × UptimeRecord :=
  let current_uptime := get_system_uptime_since_boot boot_time now
  let total_uptime := calculate_persistent_uptime record boot_time now
  let record2 := save_current_session_uptime record boot_time now
  (current_uptime, total_uptime, record2)

/-- The read path as claim C1 describes it (spec words, for comparison
with `get_server_stats`): first run the rollover check — fold when the
stored boot time differs from the sensor's by more than 60 seconds —
then checkpoint and return `accumulated + current_session`. -/
def readTotalUptimeClaimC1 (record : UptimeRecord) (boot_time now : ℚ) :
    ℚ × ℚ × UptimeRecord :=
  let rolled : UptimeRecord :=
    match record.last_boot_time with
    | some b =>
        if 60 < |b - boot_time| then
          { accumulated_uptime_seconds :=
              record.accumulated_uptime_seconds + record.last_session_uptime
            last_session_uptime := 0
            last_boot_time := some boot_time }
        else record
    | none => record
  let current_uptime := now - boot_time
  let record2 := { rolled with last_session_uptime := current_uptime }
  (current_uptime, rolled.accumulated_uptime_seconds + current_uptime, record2)

/-- A database state for the schema migration in app.py: the list of
column names of `uptime_record` plus the (nullable) per-row values of
the columns the migration touches. -/
structure UptimeDb where
  columns : List String
  total_uptime_seconds : Option ℚ
  accumulated_uptime_seconds : Option ℚ
  last_session_uptime : Option ℚ
deriving DecidableEq, Repr

/-- `migrate_database` in app.py: only when the old column
`total_uptime_seconds` is present and the new column
`accumulated_uptime_seconds` is absent, add the two new columns
(`DEFAULT 0.0`), copy the old total into `accumulated_uptime_seconds`,
and leave `last_session_uptime` at its default `0.0`.  Otherwise the
database is untouched. -/
def migrate_database (db : UptimeDb) : UptimeDb :=
  if "total_uptime_seconds" ∈ db.columns ∧
      "accumulated_uptime_seconds" ∉ db.columns then
    { columns :=
        db.columns ++ ["accumulated_uptime_seconds", "last_session_uptime"]
      total_uptime_seconds := db.total_uptime_seconds
      accumulated_uptime_seconds := db.total_uptime_seconds
      last_session_uptime := some 0 }
  else
    db

/-! ## Downtime state machine (downtime_tracker.py) -/

/-- The module-level `downtime_tracker` dict.  `offline_since`,
`last_outage_start` and `last_outage_end` hold ISO timestamps or
`None`; they are modelled as the underlying Unix times.
`last_outage_duration_seconds` is initialised to the float `0.0`, not
`None`, and is modelled as `Option` to record exactly when the code
stores `None` versus a number. -/
structure DowntimeState where
  is_offline : Bool
  offline_since : Option ℚ
  total_downtime_seconds : ℚ
  last_outage_start : Option ℚ
  last_outage_end : Option ℚ
  last_outage_duration_seconds : Option ℚ
deriving DecidableEq, Repr

/-- The initial value of the `downtime_tracker` dict. -/
def downtime_tracker : DowntimeState :=
  { is_offline := false
    offline_since := none
    total_downtime_seconds := 0
    last_outage_start := none
    last_outage_end := none
    last_outage_duration_seconds := some 0 }

/-- Response body of `GET /api/downtime/status`. -/
structure StatusResponse where
  is_offline : Bool
  current_downtime_seconds : ℚ
  total_downtime_seconds : ℚ
  offline_since : Option ℚ
  last_outage_start : Option ℚ
  last_outage_end : Option ℚ
  last_outage_duration_seconds : Option ℚ
deriving DecidableEq, Repr

/-- Response body of `POST /api/downtime/trigger-offline`. -/
structure OfflineResponse where
  status : String
  offline_since : Option ℚ
deriving DecidableEq, Repr

/-- Response body of `POST /api/downtime/trigger-online`. -/
structure OnlineResponse where
  status : String
  downtime_duration_seconds : Option ℚ
  total_downtime_seconds : Option ℚ
  was_offline_since : Option ℚ
deriving DecidableEq, Repr

/-- `get_downtime_status` in downtime_tracker.py: a pure read.  The
offline branch is taken when `is_offline` and `offline_since` are both
truthy; it reports the in-progress outage on top of the committed
total without mutating it.  Returned as `(post-state, response)`;
the handler performs no assignment, so the post-state is the input. -/
def get_downtime_status (s : DowntimeState) (now : ℚ) :
    DowntimeState × StatusResponse :=
  if s.is_offline && s.offline_since.isSome then
    let current_downtime := now - s.offline_since.getD 0
    ( s
    , { is_offline := true
        current_downtime_seconds := current_downtime
        total_downtime_seconds := s.total_downtime_seconds + current_downtime
        offline_since := s.offline_since
        last_outage_start := s.last_outage_start
        last_outage_end := s.last_outage_end
        last_outage_duration_seconds := s.last_outage_duration_seconds } )
  else
    ( s
    , { is_offline := false
        current_downtime_seconds := 0
        total_downtime_seconds := s.total_downtime_seconds
        offline_since := none
        last_outage_start := s.last_outage_start
        last_outage_end := s.last_outage_end
        last_outage_duration_seconds := s.last_outage_duration_seconds } )

/-- `trigger_offline` in downtime_tracker.py: start tracking only on
the first offline signal; a repeated signal is answered with a
distinct `already_offline` body and no state change. -/
def trigger_offline (s : DowntimeState) (now : ℚ) :
    DowntimeState × OfflineResponse :=
  if !s.is_offline then
    let s2 := { s with is_offline := true, offline_since := some now }
    (s2, { status := "success", offline_since := some now })
  else
    (s, { status := "already_offline", offline_since := s.offline_since })

/-- `trigger_online` in downtime_tracker.py: when offline (with a
truthy `offline_since`), close the outage — add its duration to the
total, snapshot the `last_outage_*` fields, clear the offline flag and
timestamp.  Otherwise answer `already_online` with no state change. -/
def trigger_online (s : DowntimeState) (now : ℚ) :
    DowntimeState × OnlineResponse :=
  if s.is_offline && s.offline_since.isSome then
    let offline_since := s.offline_since.getD 0
    let downtime_duration := now - offline_since
    let s2 : DowntimeState :=
      { is_offline := false
        offline_since := none
        total_downtime_seconds := s.total_downtime_seconds + downtime_duration
        last_outage_start := s.offline_since
        last_outage_end := some now
        last_outage_duration_seconds := some downtime_duration }
    ( s2
    , { status := "success"
        downtime_duration_seconds := some downtime_duration
        total_downtime_seconds := some s2.total_downtime_seconds
        was_offline_since := s.offline_since } )
  else
    ( s
    , { status := "already_online"
        downtime_duration_seconds := none
        total_downtime_seconds := none
        was_offline_since := none } )

/-- `reset_downtime` in downtime_tracker.py: force the online state,
zero the total, null the outage timestamps and zero the last outage
duration.  Returns the new state and the response status string. -/
def reset_downtime (s : DowntimeState) : DowntimeState × String :=
  let s2 : DowntimeState :=
    { is_offline := false
      offline_since := none
      total_downtime_seconds := 0
      last_outage_start := none
      last_outage_end := none
      last_outage_duration_seconds := some 0 }
  (s2, "success")

/-- The state-machine invariant of claim C5: `offline_since` is
non-null exactly when `is_offline` is true. -/
def OfflineInv (s : DowntimeState) : Prop :=
  s.offline_since.isSome = s.is_offline

/-! ## Claims -/

/-- Helper: the `status` handler performs no assignment, so the state
it returns is its input. -/
theorem get_downtime_status_state_eq (s : DowntimeState) (now : ℚ) :
    (get_downtime_status s now).1 = s := by
  unfold get_downtime_status
  split <;> rfl

/-- C1, counterexample.  At the concrete record
`⟨accumulated 100, last_session 50, last_boot_time 1000⟩` with the
sensor reporting boot time 2000 (a 1000-second change, far over the
threshold) at clock time 2010, the metrics read path leaves
`accumulated_uptime_seconds` at 100 and returns total 110, whereas the
claim's read-with-rollover would fold to 150 and return 160: the read
path does not perform the rollover check. -/
theorem C1_counterexample :
    (get_server_stats ⟨100, 50, some 1000⟩ 2000 2010).2.2.accumulated_uptime_seconds
      = 100 ∧
    (readTotalUptimeClaimC1 ⟨100, 50, some 1000⟩ 2000 2010).2.2.accumulated_uptime_seconds
      = 150 ∧
    get_server_stats ⟨100, 50, some 1000⟩ 2000 2010 ≠
      readTotalUptimeClaimC1 ⟨100, 50, some 1000⟩ 2000 2010 := by
  refine ⟨rfl, by norm_num [readTotalUptimeClaimC1], ?_⟩
  simp [get_server_stats, readTotalUptimeClaimC1, calculate_persistent_uptime,
    save_current_session_uptime, get_system_uptime_since_boot]
  norm_num

/-- C1, amended: the metrics read path performs no rollover check at
all.  Every `get_server_stats` call returns
`current = now - boot` and `total = accumulated + current`, and its
only mutation is the checkpoint `last_session_uptime := current`;
`accumulated_uptime_seconds` and `last_boot_time` are unchanged.  (The
rollover check lives in `handle_boot_detection`, which `init_db` runs
once at startup, not on the read path.) -/
theorem C1_amended_read_path (record : UptimeRecord) (boot_time now : ℚ) :
    (get_server_stats record boot_time now).1 = now - boot_time ∧
    (get_server_stats record boot_time now).2.1 =
      record.accumulated_uptime_seconds + (now - boot_time) ∧
    (get_server_stats record boot_time now).2.2 =
      { record with last_session_uptime := now - boot_time } :=
  ⟨rfl, rfl, rfl⟩

/-- C2: with a truthy stored boot time `b`, `handle_boot_detection`
folds exactly the checkpointed `last_session_uptime` into
`accumulated_uptime_seconds` (zeroing the session and storing the new
boot time) when `|b - cur| > 60`, leaves the record untouched when
`|b - cur| ≤ 60`, and a second invocation with the same boot time
never folds again. -/
theorem C2_rollover_iff (record : UptimeRecord) (b cur : ℚ)
    (hb : record.last_boot_time = some b) (hb0 : b ≠ 0) :
    (60 < |b - cur| →
      handle_boot_detection record cur =
        { accumulated_uptime_seconds :=
            record.accumulated_uptime_seconds + record.last_session_uptime
          last_session_uptime := 0
          last_boot_time := some cur }) ∧
    (|b - cur| ≤ 60 → handle_boot_detection record cur = record) ∧
    handle_boot_detection (handle_boot_detection record cur) cur =
      handle_boot_detection record cur := by
  refine ⟨?_, ?_, ?_⟩
  · intro hgt
    simp [handle_boot_detection, hb, pyTruthyFloat, hb0, hgt]
  · intro hle
    simp [handle_boot_detection, hb, pyTruthyFloat, hb0, not_lt.mpr hle]
  · by_cases hgt : 60 < |b - cur|
    · have h1 : handle_boot_detection record cur =
          { accumulated_uptime_seconds :=
              record.accumulated_uptime_seconds + record.last_session_uptime
            last_session_uptime := 0
            last_boot_time := some cur } := by
        simp [handle_boot_detection, hb, pyTruthyFloat, hb0, hgt]
      rw [h1]
      by_cases hc : cur = 0
      · simp [handle_boot_detection, pyTruthyFloat, hc]
      · simp [handle_boot_detection, pyTruthyFloat, hc]
    · have h1 : handle_boot_detection record cur = record := by
        simp [handle_boot_detection, hb, pyTruthyFloat, hb0, hgt]
      rw [h1, h1]

/-- C2, witness: boot time stored as 1000, sensor reports 2000 — the
fold adds the checkpointed 50 to the accumulated 100. -/
theorem C2_rollover_iff_witness :
    handle_boot_detection ⟨100, 50, some 1000⟩ 2000 =
      ⟨150, 0, some 2000⟩ := by
  have h :=
    (C2_rollover_iff ⟨100, 50, some 1000⟩ 1000 2000 rfl (by norm_num)).1
      (by norm_num)
  rw [h]
  norm_num

/-- C3, counterexample.  From the initial tracker, going offline at
time 0 and back online at time 5 accumulates 5 seconds of downtime;
the `reset` operation then drops `total_downtime_seconds` from 5 to 0,
so the counter does decrease under an operation of the machine. -/
theorem C3_counterexample :
    (reset_downtime
        (trigger_online (trigger_offline downtime_tracker 0).1 5).1).1.total_downtime_seconds
      < (trigger_online (trigger_offline downtime_tracker 0).1 5).1.total_downtime_seconds := by
  norm_num [downtime_tracker, trigger_offline, trigger_online, reset_downtime]

/-- C3, amended: excluding `reset` (which zeroes the counter),
`total_downtime_seconds` never decreases — `status` and `markOffline`
leave it unchanged, `markOnline` never lowers it (given the clock has
not gone backwards past `offline_since`) — and it changes (strictly
increases) only when `markOnline` runs from the offline state;
`reset` sets it to exactly 0. -/
theorem C3_amended_monotone (s : DowntimeState) (now : ℚ)
    (h : ∀ u, s.offline_since = some u → u ≤ now) :
    (get_downtime_status s now).1.total_downtime_seconds = s.total_downtime_seconds ∧
    (trigger_offline s now).1.total_downtime_seconds = s.total_downtime_seconds ∧
    s.total_downtime_seconds ≤ (trigger_online s now).1.total_downtime_seconds ∧
    ((trigger_online s now).1.total_downtime_seconds ≠ s.total_downtime_seconds →
      s.is_offline = true) ∧
    (reset_downtime s).1.total_downtime_seconds = 0 := by
  refine ⟨?_, ?_, ?_, ?_, rfl⟩
  · by_cases hg : s.is_offline && s.offline_since.isSome <;>
      simp [get_downtime_status, hg]
  · by_cases ho : s.is_offline <;> simp [trigger_offline, ho]
  · by_cases hg : s.is_offline && s.offline_since.isSome
    · rcases hs : s.offline_since with _ | u
      · simp [hs] at hg
      · have hu : u ≤ now := h u hs
        simp only [trigger_online, hg, if_true]
        simp [hs]
        linarith
    · simp [trigger_online, hg]
  · intro hne
    by_cases hg : s.is_offline && s.offline_since.isSome
    · exact (Bool.and_eq_true_iff.mp hg).1
    · exact absurd (by simp [trigger_online, hg]) hne

/-- C3, witness: offline since time 3 with 5 seconds committed; the
`markOnline` at time 10 does not decrease the committed total. -/
theorem C3_amended_monotone_witness :
    (⟨true, some 3, 5, none, none, some 0⟩ : DowntimeState).total_downtime_seconds ≤
      (trigger_online ⟨true, some 3, 5, none, none, some 0⟩ 10).1.total_downtime_seconds := by
  refine (C3_amended_monotone ⟨true, some 3, 5, none, none, some 0⟩ 10 ?_).2.2.1
  intro u hu
  simp only [Option.some.injEq] at hu
  subst hu
  norm_num

/-- C4, counterexample.  After a completed outage (offline at 0,
online at 5), `reset` stores the float `0.0` in
`last_outage_duration_seconds` — not null — so not all three
last-outage fields are null after `reset()`. -/
theorem C4_counterexample :
    (reset_downtime
        (trigger_online (trigger_offline downtime_tracker 0).1 5).1).1.last_outage_duration_seconds
      = some 0 ∧
    (reset_downtime
        (trigger_online (trigger_offline downtime_tracker 0).1 5).1).1.last_outage_duration_seconds
      ≠ none := by
  constructor <;> simp [reset_downtime]

/-- C4, amended: after `reset()` the record has `is_offline = false`,
`offline_since` null, `total_downtime_seconds = 0`,
`last_outage_start` and `last_outage_end` null, and
`last_outage_duration_seconds` equal to the number `0` (not null). -/
theorem C4_amended_reset (s : DowntimeState) :
    (reset_downtime s).1.is_offline = false ∧
    (reset_downtime s).1.offline_since = none ∧
    (reset_downtime s).1.total_downtime_seconds = 0 ∧
    (reset_downtime s).1.last_outage_start = none ∧
    (reset_downtime s).1.last_outage_end = none ∧
    (reset_downtime s).1.last_outage_duration_seconds = some 0 :=
  ⟨rfl, rfl, rfl, rfl, rfl, rfl⟩

/-- C5: `offline_since` is non-null exactly when `is_offline` — true
of the initial tracker and preserved by all four operations. -/
theorem C5_invariant_preserved :
    OfflineInv downtime_tracker ∧
    ∀ (s : DowntimeState) (now : ℚ), OfflineInv s →
      OfflineInv (get_downtime_status s now).1 ∧
      OfflineInv (trigger_offline s now).1 ∧
      OfflineInv (trigger_online s now).1 ∧
      OfflineInv (reset_downtime s).1 := by
  refine ⟨rfl, fun s now hs => ?_⟩
  simp only [OfflineInv] at hs ⊢
  refine ⟨?_, ?_, ?_, rfl⟩
  · rw [get_downtime_status_state_eq]
    exact hs
  · by_cases ho : s.is_offline <;> simp [trigger_offline, ho, hs]
  · cases ho : s.is_offline
    · have hg : (s.is_offline && s.offline_since.isSome) = false := by simp [ho]
      simp [trigger_online, hg, hs, ho]
    · rcases hos : s.offline_since with _ | u
      · rw [hos, ho] at hs
        simp at hs
      · have hg : (s.is_offline && s.offline_since.isSome) = true := by
          simp [ho, hos]
        simp [trigger_online, hg]

/-- C5, witness: the invariant holds after one `markOffline` from the
initial state, via the preservation theorem applied to the initial
state's invariant. -/
theorem C5_invariant_preserved_witness :
    OfflineInv (trigger_offline downtime_tracker 0).1 := by
  have h := C5_invariant_preserved
  exact (h.2 downtime_tracker 0 h.1).2.1

/-- C6: from the online state, the first `markOffline` stamps
`offline_since` with its own time `t1`; a second `markOffline` replies
`already_offline` and changes nothing; the following `markOnline`
closes exactly one outage, adding `t3 - t1` (measured from the first
stamp) to the total and returning that duration. -/
theorem C6_double_mark_offline (s : DowntimeState) (t1 t2 t3 : ℚ)
    (h : s.is_offline = false) :
    (trigger_offline s t1).1.offline_since = some t1 ∧
    trigger_offline (trigger_offline s t1).1 t2 =
      ((trigger_offline s t1).1,
        { status := "already_offline", offline_since := some t1 }) ∧
    (trigger_online (trigger_offline (trigger_offline s t1).1 t2).1
        t3).1.total_downtime_seconds =
      s.total_downtime_seconds + (t3 - t1) ∧
    (trigger_online (trigger_offline (trigger_offline s t1).1 t2).1
        t3).1.is_offline = false ∧
    (trigger_online (trigger_offline (trigger_offline s t1).1 t2).1
        t3).1.offline_since = none ∧
    (trigger_online (trigger_offline (trigger_offline s t1).1 t2).1
        t3).2.downtime_duration_seconds = some (t3 - t1) := by
  simp [trigger_offline, trigger_online, h]

/-- C6, witness: offline at 0, duplicate offline at 1, online at 15
accumulates exactly 15 seconds from the first stamp. -/
theorem C6_double_mark_offline_witness :
    (trigger_online
        (trigger_offline (trigger_offline downtime_tracker 0).1 1).1
        15).1.total_downtime_seconds = 15 := by
  have h := (C6_double_mark_offline downtime_tracker 0 1 15 rfl).2.2.1
  rw [h]
  norm_num [downtime_tracker]

/-- C7: `status()` mutates no state.  While offline since `t` it
reports `current = now - t` and a live total of the committed total
plus `now - t` (the stored field itself unchanged, by the first
conjunct); while online it reports current downtime 0 and the
committed total; in both states the response carries the last
completed outage's start, end and duration. -/
theorem C7_status_read (s : DowntimeState) (now : ℚ) :
    (get_downtime_status s now).1 = s ∧
    (∀ t, s.is_offline = true → s.offline_since = some t →
      (get_downtime_status s now).2.is_offline = true ∧
      (get_downtime_status s now).2.current_downtime_seconds = now - t ∧
      (get_downtime_status s now).2.total_downtime_seconds =
        s.total_downtime_seconds + (now - t)) ∧
    (s.is_offline = false →
      (get_downtime_status s now).2.is_offline = false ∧
      (get_downtime_status s now).2.current_downtime_seconds = 0 ∧
      (get_downtime_status s now).2.total_downtime_seconds =
        s.total_downtime_seconds) ∧
    (get_downtime_status s now).2.last_outage_start = s.last_outage_start ∧
    (get_downtime_status s now).2.last_outage_end = s.last_outage_end ∧
    (get_downtime_status s now).2.last_outage_duration_seconds =
      s.last_outage_duration_seconds := by
  refine ⟨get_downtime_status_state_eq s now, ?_, ?_, ?_, ?_, ?_⟩
  · intro t ho hos
    simp [get_downtime_status, ho, hos]
  · intro ho
    have hg : (s.is_offline && s.offline_since.isSome) = false := by simp [ho]
    simp [get_downtime_status, hg]
  · unfold get_downtime_status
    split <;> rfl
  · unfold get_downtime_status
    split <;> rfl
  · unfold get_downtime_status
    split <;> rfl

/-- C7, witness: offline since time 3 with committed total 5, read at
time 10 — the reported in-progress downtime is 7 seconds. -/
theorem C7_status_read_witness :
    (get_downtime_status ⟨true, some 3, 5, some 1, some 2, some 1⟩
        10).2.current_downtime_seconds = 7 := by
  have h :=
    (C7_status_read ⟨true, some 3, 5, some 1, some 2, some 1⟩ 10).2.1 3 rfl rfl
  rw [h.2.1]
  norm_num

/-- C8: `markOnline` while already online and `markOffline` while
already offline never fail: each answers a distinct
already-in-that-state status (different from the `success` status) and
leaves the state exactly as it was. -/
theorem C8_already_in_state (s : DowntimeState) (now : ℚ) :
    (s.is_offline = false →
      (trigger_online s now).1 = s ∧
      (trigger_online s now).2.status = "already_online" ∧
      (trigger_online s now).2.status ≠ "success") ∧
    (s.is_offline = true →
      (trigger_offline s now).1 = s ∧
      (trigger_offline s now).2.status = "already_offline" ∧
      (trigger_offline s now).2.status ≠ "success") := by
  constructor
  · intro ho
    have hg : (s.is_offline && s.offline_since.isSome) = false := by simp [ho]
    refine ⟨?_, ?_, ?_⟩ <;> simp [trigger_online, hg]
  · intro ho
    refine ⟨?_, ?_, ?_⟩ <;> simp [trigger_offline, ho]

/-- C8, witness: `markOnline` on the initial (online) tracker answers
`already_online`. -/
theorem C8_already_in_state_witness :
    (trigger_online downtime_tracker 0).2.status = "already_online" :=
  ((C8_already_in_state downtime_tracker 0).1 rfl).2.1

/-- C9: when the old column `total_uptime_seconds` is present, the new
column `accumulated_uptime_seconds` absent, and the stored old total
is `T`, migration yields `accumulated_uptime_seconds = T` and
`last_session_uptime = 0`; on any database not in that old layout the
migration changes nothing. -/
theorem C9_migration (db : UptimeDb) (T : ℚ)
    (h1 : "total_uptime_seconds" ∈ db.columns)
    (h2 : "accumulated_uptime_seconds" ∉ db.columns)
    (hT : db.total_uptime_seconds = some T) :
    (migrate_database db).accumulated_uptime_seconds = some T ∧
    (migrate_database db).last_session_uptime = some 0 ∧
    ∀ db2 : UptimeDb,
      ¬("total_uptime_seconds" ∈ db2.columns ∧
          "accumulated_uptime_seconds" ∉ db2.columns) →
      migrate_database db2 = db2 := by
  refine ⟨?_, ?_, fun db2 hn => ?_⟩
  · simp [migrate_database, h1, h2, hT]
  · simp [migrate_database, h1, h2]
  · simp [migrate_database, hn]

/-- C9, witness: an old-layout row with total 42 migrates to
`accumulated_uptime_seconds = 42`. -/
theorem C9_migration_witness :
    (migrate_database
        ⟨["id", "total_uptime_seconds", "last_boot_time"],
          some 42, none, none⟩).accumulated_uptime_seconds = some 42 := by
  refine (C9_migration _ 42 ?_ ?_ rfl).1
  · simp
  · simp

/-- C10: with a falsy stored boot time (`NULL` or `0.0`),
`handle_boot_detection` never folds, whatever boot time the sensor now
reports — the record comes back unchanged. -/
theorem C10_falsy_last_boot (record : UptimeRecord) (cur : ℚ)
    (h : record.last_boot_time = none ∨ record.last_boot_time = some 0) :
    handle_boot_detection record cur = record := by
  rcases h with h | h <;> simp [handle_boot_detection, pyTruthyFloat, h]

/-- C10, witness: a stored boot time of `0.0` suppresses the fold even
for a sensor boot time of 999999. -/
theorem C10_falsy_last_boot_witness :
    handle_boot_detection ⟨100, 50, some 0⟩ 999999 = ⟨100, 50, some 0⟩ :=
  C10_falsy_last_boot ⟨100, 50, some 0⟩ 999999 (Or.inr rfl)
